import Mathlib

/-!
Verification of the salary/income-tax batch calculator (`calculator.py`).

The per-record arithmetic of the program is embedded over `ℚ`: the Python
code computes with decimal literals (tax rates, insurance rates) and integer
incomes, and the specification's properties are stated as exact decimal
arithmetic, which `ℚ` models faithfully. The three-stage multiprocessing
pipeline (source process, calculator process, exporter process, communicating
through two FIFO queues with 1-second timeout-based termination) is embedded
as a small-step transition relation over an explicit pipeline state, with the
timeout modelled as a nondeterministic "queue is empty, stage may exit" step.
-/

/-- One entry of the quick-lookup tax table: mirrors the Python namedtuple
`IncomeTaxQuickLookupItem(start_point, tax_rate, quick_subtractor)`. -/
structure IncomeTaxQuickLookupItem where
  start_point : ℚ
  tax_rate : ℚ
  quick_subtractor : ℚ
deriving DecidableEq, Repr

/-- The exemption threshold `INCOME_TAX_START_POINT = 3500`. -/
def INCOME_TAX_START_POINT : ℚ := 3500

/-- The quick-lookup tax table, descending by `start_point`, exactly as in the
source. -/
def INCOME_TAX_QUICK_LOOKUP_TABLE : List IncomeTaxQuickLookupItem :=
  [⟨80000, 0.45, 13505⟩,
   ⟨55000, 0.35, 5505⟩,
   ⟨35000, 0.30, 2755⟩,
   ⟨9000, 0.25, 1005⟩,
   ⟨4500, 0.20, 555⟩,
   ⟨1500, 0.1, 105⟩,
   ⟨0, 0.03, 0⟩]

/-- The resolved insurance configuration used by the calculator:
`social_insurance_baseline_low` (`JiShuL`), `social_insurance_baseline_high`
(`JiShuH`) and `social_insurance_total_rate` (the sum of the six contribution
rates). -/
structure InsuranceParams where
  low : ℚ
  high : ℚ
  rate : ℚ
deriving DecidableEq, Repr

/-- `IncomeTaxCalculator.calc_social_insurance_money`: the income is compared
with the configured floor and ceiling; the (possibly clamped) base is
multiplied by the combined rate. -/
def calc_social_insurance_money (p : InsuranceParams) (income : ℚ) : ℚ :=
  if income < p.low then p.low * p.rate
  else if income > p.high then p.high * p.rate
  else income * p.rate

/-- The `for item in INCOME_TAX_QUICK_LOOKUP_TABLE` loop of
`calc_income_tax_and_remain`: the first item with `taxable_part >
item.start_point` yields `(tax, real_income - tax)` with
`tax = taxable_part * tax_rate - quick_subtractor`; if no item matches the
loop falls through to `('0.00', real_income)`. -/
def taxLoop (taxable_part real_income : ℚ) :
    List IncomeTaxQuickLookupItem → ℚ × ℚ
  | [] => (0, real_income)
  | item :: rest =>
    if taxable_part > item.start_point then
      (taxable_part * item.tax_rate - item.quick_subtractor,
       real_income - (taxable_part * item.tax_rate - item.quick_subtractor))
    else taxLoop taxable_part real_income rest

/-- `IncomeTaxCalculator.calc_income_tax_and_remain`: compute the insurance
money, the post-insurance `real_income`, the `taxable_part` above the
exemption threshold, and run the bracket loop. Returns `(tax, remain)`. -/
def calc_income_tax_and_remain (p : InsuranceParams) (income : ℚ) : ℚ × ℚ :=
  let social_insurance_money := calc_social_insurance_money p income
  let real_income := income - social_insurance_money
  let taxable_part := real_income - INCOME_TAX_START_POINT
  taxLoop taxable_part real_income INCOME_TAX_QUICK_LOOKUP_TABLE

/-- The bracket-selection part of the loop in `calc_income_tax_and_remain`,
as a lookup returning the selected table item (the spec's 4.1 contract
`lookup(taxable_amount)`): scan in list order, return the first item whose
`start_point` is strictly below the taxable amount. -/
def lookupBracket (taxable_part : ℚ) :
    List IncomeTaxQuickLookupItem → Option IncomeTaxQuickLookupItem
  | [] => none
  | item :: rest =>
    if taxable_part > item.start_point then some item
    else lookupBracket taxable_part rest

/-- Modelled from the spec: the clamp of the insurance base to
`[base_floor, base_ceiling]` (`clamp(gross_income, floor, ceiling)`). -/
def clampBase (income low high : ℚ) : ℚ := max low (min income high)

/-- Modelled from the spec: the progressive-marginal-rate tax, written as the
sum, over every bracket strictly below the selected one, of
(bracket span) * (bracket rate), plus
(taxable amount - selected lower bound) * (selected rate), for the default
schedule with lower bounds 0, 1500, 4500, 9000, 35000, 55000, 80000. -/
def progressiveTax (t : ℚ) : ℚ :=
  if t > 80000 then
    (1500 - 0) * 0.03 + (4500 - 1500) * 0.1 + (9000 - 4500) * 0.2 +
      (35000 - 9000) * 0.25 + (55000 - 35000) * 0.3 +
      (80000 - 55000) * 0.35 + (t - 80000) * 0.45
  else if t > 55000 then
    (1500 - 0) * 0.03 + (4500 - 1500) * 0.1 + (9000 - 4500) * 0.2 +
      (35000 - 9000) * 0.25 + (55000 - 35000) * 0.3 + (t - 55000) * 0.35
  else if t > 35000 then
    (1500 - 0) * 0.03 + (4500 - 1500) * 0.1 + (9000 - 4500) * 0.2 +
      (35000 - 9000) * 0.25 + (t - 35000) * 0.3
  else if t > 9000 then
    (1500 - 0) * 0.03 + (4500 - 1500) * 0.1 + (9000 - 4500) * 0.2 +
      (t - 9000) * 0.25
  else if t > 4500 then
    (1500 - 0) * 0.03 + (4500 - 1500) * 0.1 + (t - 4500) * 0.2
  else if t > 1500 then
    (1500 - 0) * 0.03 + (t - 1500) * 0.1
  else if t > 0 then
    (t - 0) * 0.03
  else 0

/-- The concrete configuration of the spec's scenarios: floor 3000, ceiling
20000, combined rate 0.105. -/
def scenarioParams : InsuranceParams := ⟨3000, 20000, 0.105⟩

/-- C5: under floor=3000, ceiling=20000, combined_rate=0.105 and the default
table, gross 10000 gives insurance 1050, tax 535, net 8415; gross 2000 gives
insurance 315, tax 0, net 1685; gross 50000 gives insurance 2100, tax 10565,
net 37335 (all values exact, so the 2-decimal formatting renders them as
1050.00, 535.00, ...). -/
theorem scenario_outputs :
    calc_social_insurance_money scenarioParams 10000 = 1050 ∧
    calc_income_tax_and_remain scenarioParams 10000 = (535, 8415) ∧
    calc_social_insurance_money scenarioParams 2000 = 315 ∧
    calc_income_tax_and_remain scenarioParams 2000 = (0, 1685) ∧
    calc_social_insurance_money scenarioParams 50000 = 2100 ∧
    calc_income_tax_and_remain scenarioParams 50000 = (10565, 37335) := by
  refine ⟨?_, ?_, ?_, ?_, ?_, ?_⟩ <;>
    norm_num [calc_social_insurance_money, calc_income_tax_and_remain,
      scenarioParams, taxLoop, INCOME_TAX_QUICK_LOOKUP_TABLE,
      INCOME_TAX_START_POINT]

/-- C3: the insurance withheld is exactly the clamp of the gross income to
`[base_floor, base_ceiling]` times the combined rate; equivalently, it is
`base_floor * rate` below the floor, `base_ceiling * rate` above the ceiling
and `income * rate` in between. -/
theorem insurance_eq_clamp_times_rate (p : InsuranceParams) (income : ℚ)
    (hinc : 0 ≤ income) (hlo : 0 ≤ p.low) (hlohi : p.low ≤ p.high)
    (hrate : 0 ≤ p.rate) :
    calc_social_insurance_money p income = clampBase income p.low p.high * p.rate ∧
    (income < p.low → calc_social_insurance_money p income = p.low * p.rate) ∧
    (income > p.high → calc_social_insurance_money p income = p.high * p.rate) ∧
    (p.low ≤ income → income ≤ p.high →
      calc_social_insurance_money p income = income * p.rate) := by
  unfold calc_social_insurance_money clampBase
  refine ⟨?_, ?_, ?_, fun _ _ => ?_⟩
  · rw [max_def, min_def]; split_ifs <;> first | rfl | linarith
  · intro h; split_ifs <;> first | rfl | linarith
  · intro h; split_ifs <;> first | rfl | linarith
  · split_ifs <;> first | rfl | linarith

/-- C3 witness. -/
theorem insurance_eq_clamp_times_rate_witness :
    calc_social_insurance_money scenarioParams 10000 =
      clampBase 10000 scenarioParams.low scenarioParams.high *
        scenarioParams.rate :=
  (insurance_eq_clamp_times_rate scenarioParams 10000 (by norm_num)
    (by norm_num [scenarioParams]) (by norm_num [scenarioParams])
    (by norm_num [scenarioParams])).1

/-- If the taxable part is not positive, every test of the bracket loop
fails (all `start_point`s are nonnegative) and the loop falls through to
`(0, real_income)`. -/
theorem taxLoop_nonpos (t r : ℚ) (h : t ≤ 0) :
    taxLoop t r INCOME_TAX_QUICK_LOOKUP_TABLE = (0, r) := by
  simp only [INCOME_TAX_QUICK_LOOKUP_TABLE, taxLoop]
  split_ifs <;> first | rfl | (exfalso; revert h; norm_num; linarith)

/-- C4: whenever the taxable part (real income minus the 3500 threshold) is
not positive, no bracket matches, the tax is 0 and the remain equals the
real income. -/
theorem no_tax_below_threshold (p : InsuranceParams) (income : ℚ)
    (h : income - calc_social_insurance_money p income -
      INCOME_TAX_START_POINT ≤ 0) :
    calc_income_tax_and_remain p income =
      (0, income - calc_social_insurance_money p income) := by
  unfold calc_income_tax_and_remain
  exact taxLoop_nonpos _ _ h

/-- C4 witness. -/
theorem no_tax_below_threshold_witness :
    calc_income_tax_and_remain scenarioParams 2000 =
      (0, 2000 - calc_social_insurance_money scenarioParams 2000) :=
  no_tax_below_threshold scenarioParams 2000 (by
    norm_num [calc_social_insurance_money, scenarioParams,
      INCOME_TAX_START_POINT])

/-- If the bracket scan returns an item, that item is in the table and its
`start_point` is strictly below the taxable amount. -/
theorem lookupBracket_eq_some (t : ℚ) (l : List IncomeTaxQuickLookupItem)
    (item : IncomeTaxQuickLookupItem) (h : lookupBracket t l = some item) :
    item ∈ l ∧ item.start_point < t := by
  induction l with
  | nil => simp [lookupBracket] at h
  | cons a rest ih =>
    simp only [lookupBracket] at h
    split_ifs at h with ha
    · obtain rfl := Option.some.inj h
      exact ⟨List.mem_cons_self _ _, ha⟩
    · obtain ⟨h1, h2⟩ := ih h
      exact ⟨List.mem_cons_of_mem _ h1, h2⟩

/-- On a table sorted strictly descending by `start_point`, the scan returns
the greatest `start_point` strictly below the taxable amount. -/
theorem lookupBracket_greatest (t : ℚ) :
    ∀ l : List IncomeTaxQuickLookupItem,
      l.Pairwise (fun a b => b.start_point < a.start_point) →
      ∀ item : IncomeTaxQuickLookupItem, lookupBracket t l = some item →
      ∀ j ∈ l, j.start_point < t → j.start_point ≤ item.start_point := by
  intro l
  induction l with
  | nil => intro _ item h; simp [lookupBracket] at h
  | cons a rest ih =>
    intro hsort item h
    rw [List.pairwise_cons] at hsort
    simp only [lookupBracket] at h
    split_ifs at h with ha
    · obtain rfl := Option.some.inj h
      intro j hj _
      rcases List.mem_cons.1 hj with rfl | hj
      · exact le_refl _
      · exact (hsort.1 j hj).le
    · intro j hj hjt
      rcases List.mem_cons.1 hj with rfl | hj
      · exact absurd hjt ha
      · exact ih hsort.2 item h j hj hjt

/-- On a table sorted strictly descending by `start_point`, `start_point` is
injective on table members. -/
theorem start_point_inj :
    ∀ l : List IncomeTaxQuickLookupItem,
      l.Pairwise (fun a b => b.start_point < a.start_point) →
      ∀ i ∈ l, ∀ j ∈ l, i.start_point = j.start_point → i = j := by
  intro l
  induction l with
  | nil => intro _ i hi; simp at hi
  | cons a rest ih =>
    intro hsort i hi j hj heq
    rw [List.pairwise_cons] at hsort
    rcases List.mem_cons.1 hi with rfl | hi2
    · rcases List.mem_cons.1 hj with rfl | hj2
      · rfl
      · exact absurd heq (ne_of_gt (hsort.1 j hj2))
    · rcases List.mem_cons.1 hj with rfl | hj2
      · exact absurd heq (ne_of_lt (hsort.1 i hi2))
      · exact ih hsort.2 i hi2 j hj2 heq

/-- The tax loop returns exactly the quick formula of the bracket the scan
selects. -/
theorem taxLoop_eq_of_lookupBracket (t r : ℚ)
    (l : List IncomeTaxQuickLookupItem) (item : IncomeTaxQuickLookupItem)
    (h : lookupBracket t l = some item) :
    taxLoop t r l =
      (t * item.tax_rate - item.quick_subtractor,
       r - (t * item.tax_rate - item.quick_subtractor)) := by
  induction l with
  | nil => simp [lookupBracket] at h
  | cons a rest ih =>
    simp only [lookupBracket] at h
    simp only [taxLoop]
    split_ifs at h ⊢ with ha
    · obtain rfl := Option.some.inj h
      rfl
    · exact ih h

/-- The concrete table is sorted strictly descending by `start_point`. -/
theorem table_sorted :
    INCOME_TAX_QUICK_LOOKUP_TABLE.Pairwise
      (fun a b => b.start_point < a.start_point) := by
  norm_num [INCOME_TAX_QUICK_LOOKUP_TABLE, List.pairwise_cons]

/-- For a positive taxable amount the scan over the concrete table always
selects some bracket (the last entry has `start_point = 0`). -/
theorem lookupBracket_table_isSome (t : ℚ) (ht : 0 < t) :
    ∃ item, lookupBracket t INCOME_TAX_QUICK_LOOKUP_TABLE = some item := by
  simp only [INCOME_TAX_QUICK_LOOKUP_TABLE, lookupBracket]
  split_ifs <;> exact ⟨_, rfl⟩

/-- C2: for every positive taxable amount, the scan in descending
`start_point` order selects exactly the unique table bracket whose
`start_point` is the greatest one strictly below the amount (amounts exactly
at a boundary stay in the lower bracket because the test is strict), and the
tax loop of `calc_income_tax_and_remain` applies that bracket's quick
formula. -/
theorem bracket_selection_greatest_lower_bound (t : ℚ) (ht : 0 < t) :
    ∃ item, lookupBracket t INCOME_TAX_QUICK_LOOKUP_TABLE = some item ∧
      item ∈ INCOME_TAX_QUICK_LOOKUP_TABLE ∧ item.start_point < t ∧
      (∀ j ∈ INCOME_TAX_QUICK_LOOKUP_TABLE, j.start_point < t →
        j.start_point ≤ item.start_point) ∧
      (∀ j ∈ INCOME_TAX_QUICK_LOOKUP_TABLE, j.start_point < t →
        (∀ k ∈ INCOME_TAX_QUICK_LOOKUP_TABLE, k.start_point < t →
          k.start_point ≤ j.start_point) → j = item) ∧
      (∀ r : ℚ, taxLoop t r INCOME_TAX_QUICK_LOOKUP_TABLE =
        (t * item.tax_rate - item.quick_subtractor,
         r - (t * item.tax_rate - item.quick_subtractor))) := by
  obtain ⟨item, hitem⟩ := lookupBracket_table_isSome t ht
  obtain ⟨hmem, hlt⟩ := lookupBracket_eq_some t _ item hitem
  have hmax := lookupBracket_greatest t _ table_sorted item hitem
  refine ⟨item, hitem, hmem, hlt, hmax, ?_, ?_⟩
  · intro j hj hjt hjmax
    exact start_point_inj _ table_sorted j hj item hmem
      (le_antisymm (hmax j hj hjt) (hjmax item hmem hlt))
  · intro r
    exact taxLoop_eq_of_lookupBracket t r _ item hitem

/-- C2 witness. -/
theorem bracket_selection_greatest_lower_bound_witness :
    ∃ item, lookupBracket 5450 INCOME_TAX_QUICK_LOOKUP_TABLE = some item ∧
      item ∈ INCOME_TAX_QUICK_LOOKUP_TABLE ∧ item.start_point < 5450 ∧
      (∀ j ∈ INCOME_TAX_QUICK_LOOKUP_TABLE, j.start_point < 5450 →
        j.start_point ≤ item.start_point) ∧
      (∀ j ∈ INCOME_TAX_QUICK_LOOKUP_TABLE, j.start_point < 5450 →
        (∀ k ∈ INCOME_TAX_QUICK_LOOKUP_TABLE, k.start_point < 5450 →
          k.start_point ≤ j.start_point) → j = item) ∧
      (∀ r : ℚ, taxLoop 5450 r INCOME_TAX_QUICK_LOOKUP_TABLE =
        (5450 * item.tax_rate - item.quick_subtractor,
         r - (5450 * item.tax_rate - item.quick_subtractor))) :=
  bracket_selection_greatest_lower_bound 5450 (by norm_num)

/-- C1: for every positive taxable amount, the quick formula
`taxable * rate - quick_subtractor` applied by the loop equals the
progressive marginal-rate sum over the brackets (span times rate for every
bracket below the selected one, plus the marginal part in the selected
bracket). -/
theorem quick_formula_eq_progressive (t r : ℚ) (ht : 0 < t) :
    (taxLoop t r INCOME_TAX_QUICK_LOOKUP_TABLE).1 = progressiveTax t := by
  simp only [INCOME_TAX_QUICK_LOOKUP_TABLE, taxLoop, progressiveTax]
  split_ifs <;> norm_num <;> ring_nf

/-- C1 witness. -/
theorem quick_formula_eq_progressive_witness :
    (taxLoop 5450 8950 INCOME_TAX_QUICK_LOOKUP_TABLE).1 =
      progressiveTax 5450 :=
  quick_formula_eq_progressive 5450 8950 (by norm_num)

/-- The post-insurance income `income - calc_social_insurance_money` is
monotone nondecreasing in the income when the combined rate is below 1 and
the floor does not exceed the ceiling. -/
theorem real_income_mono (p : InsuranceParams) (hr0 : 0 ≤ p.rate)
    (hr1 : p.rate < 1) (hlohi : p.low ≤ p.high) (a b : ℚ) (hab : a ≤ b) :
    a - calc_social_insurance_money p a ≤
      b - calc_social_insurance_money p b := by
  unfold calc_social_insurance_money
  split_ifs <;> nlinarith

set_option maxHeartbeats 3200000 in
/-- The remain computed by the bracket loop, as a function of the real
income, is monotone nondecreasing: each bracket's net slope `1 - rate` is
positive and the quick formula is continuous at every bracket boundary. -/
theorem taxLoop_remain_mono (r1 r2 : ℚ) (h : r1 ≤ r2) :
    (taxLoop (r1 - INCOME_TAX_START_POINT) r1
      INCOME_TAX_QUICK_LOOKUP_TABLE).2 ≤
    (taxLoop (r2 - INCOME_TAX_START_POINT) r2
      INCOME_TAX_QUICK_LOOKUP_TABLE).2 := by
  simp only [INCOME_TAX_QUICK_LOOKUP_TABLE, taxLoop, INCOME_TAX_START_POINT]
  split_ifs <;> dsimp only <;> linarith

/-- C9: under any configuration with `0 ≤ rate < 1` and `floor ≤ ceiling`,
the net pay (the `remain` component of `calc_income_tax_and_remain`) is
monotone nondecreasing in the gross income: a raise can never lower the net
pay. -/
theorem net_pay_monotone (p : InsuranceParams) (hr0 : 0 ≤ p.rate)
    (hr1 : p.rate < 1) (hlohi : p.low ≤ p.high) (a b : ℚ) (hab : a ≤ b) :
    (calc_income_tax_and_remain p a).2 ≤
      (calc_income_tax_and_remain p b).2 := by
  have h := real_income_mono p hr0 hr1 hlohi a b hab
  unfold calc_income_tax_and_remain
  exact taxLoop_remain_mono _ _ h

/-- C9 witness. -/
theorem net_pay_monotone_witness :
    (calc_income_tax_and_remain scenarioParams 10000).2 ≤
      (calc_income_tax_and_remain scenarioParams 50000).2 :=
  net_pay_monotone scenarioParams (by norm_num [scenarioParams])
    (by norm_num [scenarioParams]) (by norm_num [scenarioParams])
    10000 50000 (by norm_num)

/-- C10: the per-record computation is total on negative incomes and treats
them through the same clamp: a negative income is below the (nonnegative)
floor, so the insurance is still `floor * rate`, the taxable part is
negative, the tax is 0 and the net pay is the (negative) real income. -/
theorem negative_income_processed (p : InsuranceParams) (hlo : 0 ≤ p.low)
    (hrate : 0 ≤ p.rate) (income : ℚ) (hneg : income < 0) :
    calc_social_insurance_money p income = p.low * p.rate ∧
    calc_income_tax_and_remain p income =
      (0, income - p.low * p.rate) ∧
    (calc_income_tax_and_remain p income).2 < 0 := by
  have hins : calc_social_insurance_money p income = p.low * p.rate := by
    unfold calc_social_insurance_money
    rw [if_pos (lt_of_lt_of_le hneg hlo)]
  have hlr : 0 ≤ p.low * p.rate := mul_nonneg hlo hrate
  have hcalc : calc_income_tax_and_remain p income =
      (0, income - p.low * p.rate) := by
    unfold calc_income_tax_and_remain
    rw [hins]
    exact taxLoop_nonpos _ _ (by norm_num [INCOME_TAX_START_POINT]; linarith)
  refine ⟨hins, hcalc, ?_⟩
  rw [hcalc]
  simpa using by linarith

/-- An income record `(employee_id, income)` flowing through the input
queue. -/
abbrev IncomeRecord := String × ℚ

/-- A result row flowing through the output queue, as produced by
`IncomeTaxCalculator.calculate`: employee id, gross income, insurance money,
tax, remain (the wall-clock timestamp column is omitted from the model). -/
abbrev ResultRecord := String × ℚ × ℚ × ℚ × ℚ

/-- `IncomeTaxCalculator.calculate`: build the output row for one record. -/
def calculate (p : InsuranceParams) (employee_id : String) (income : ℚ) :
    ResultRecord :=
  (employee_id, income, calc_social_insurance_money p income,
   (calc_income_tax_and_remain p income).1,
   (calc_income_tax_and_remain p income).2)

/-- A state of the three-stage pipeline of `calculator.py`: the records the
`UserData` process has not yet put, the two FIFO queues, the rows already
written by the `IncomeTaxExporter`, the number of still-running
`IncomeTaxCalculator` workers, and whether the exporter is still running. -/
structure PipeState where
  src : List IncomeRecord
  qA : List IncomeRecord
  qB : List ResultRecord
  out : List ResultRecord
  workers : ℕ
  sinkAlive : Bool
deriving DecidableEq

/-- One interleaving step of the pipeline. The `queue.get(timeout=1)` /
`queue.Empty` termination policy of the calculator and exporter processes is
modelled nondeterministically: whenever a stage's input queue is empty, that
stage may observe the timeout and exit, regardless of whether upstream
stages will still produce items. -/
inductive PipeStep (p : InsuranceParams) : PipeState → PipeState → Prop
  | source_put (r : IncomeRecord) (rest qA : List IncomeRecord)
      (qB out : List ResultRecord) (w : ℕ) (sa : Bool) :
      PipeStep p ⟨r :: rest, qA, qB, out, w, sa⟩
        ⟨rest, qA ++ [r], qB, out, w, sa⟩
  | worker_process (r : IncomeRecord) (src qA : List IncomeRecord)
      (qB out : List ResultRecord) (w : ℕ) (sa : Bool) :
      PipeStep p ⟨src, r :: qA, qB, out, w + 1, sa⟩
        ⟨src, qA, qB ++ [calculate p r.1 r.2], out, w + 1, sa⟩
  | worker_timeout (src : List IncomeRecord) (qB out : List ResultRecord)
      (w : ℕ) (sa : Bool) :
      PipeStep p ⟨src, [], qB, out, w + 1, sa⟩ ⟨src, [], qB, out, w, sa⟩
  | sink_get (r : ResultRecord) (src qA : List IncomeRecord)
      (qB out : List ResultRecord) (w : ℕ) :
      PipeStep p ⟨src, qA, r :: qB, out, w, true⟩
        ⟨src, qA, qB, out ++ [r], w, true⟩
  | sink_timeout (src qA : List IncomeRecord) (out : List ResultRecord)
      (w : ℕ) :
      PipeStep p ⟨src, qA, [], out, w, true⟩ ⟨src, qA, [], out, w, false⟩

/-- The initial pipeline state: all records still in the source, both queues
empty, `n` workers and the exporter running. -/
def initState (input : List IncomeRecord) (n : ℕ) : PipeState :=
  ⟨input, [], [], [], n, true⟩

/-- A completed run: the source has emitted everything and every worker and
the exporter have exited (all three processes joined). -/
def Terminal (s : PipeState) : Prop :=
  s.src = [] ∧ s.workers = 0 ∧ s.sinkAlive = false

/-- The multiset of employee ids of a list of income records. -/
def inIds (l : List IncomeRecord) : Multiset String :=
  (l.map Prod.fst : List String)

/-- The multiset of employee ids of a list of result rows. -/
def outIds (l : List ResultRecord) : Multiset String :=
  (l.map Prod.fst : List String)

/-- The multiset of employee ids anywhere in the pipeline. -/
def idCount (s : PipeState) : Multiset String :=
  inIds s.src + inIds s.qA + outIds s.qB + outIds s.out

/-- Every pipeline step conserves the multiset of employee ids in flight:
steps only move records between stages (the worker step maps a record to the
result row with the same employee id) or kill a stage. -/
theorem pipeStep_idCount (p : InsuranceParams) {s s' : PipeState}
    (h : PipeStep p s s') : idCount s' = idCount s := by
  cases h <;>
    simp only [idCount, inIds, outIds, List.map_append, List.map_cons,
      List.map_nil, calculate, ← Multiset.coe_add, ← Multiset.cons_coe,
      ← Multiset.singleton_add, Multiset.coe_nil, add_zero] <;>
    abel

/-- Id conservation along any interleaving. -/
theorem reachable_idCount (p : InsuranceParams) {s s' : PipeState}
    (h : Relation.ReflTransGen (PipeStep p) s s') :
    idCount s' = idCount s := by
  induction h with
  | refl => rfl
  | tail _ hstep ih => rw [pipeStep_idCount p hstep, ih]

/-- The terminal state of the dropped-record interleaving: the worker and
the exporter timed out before the source put its record, which is left
sitting in the input queue. -/
def droppedFinal : PipeState := ⟨[], [("1001", 10000)], [], [], 0, false⟩

/-- C6 counterexample: with one input record and one worker there is an
interleaving of the timeout-based termination protocol that reaches a
completed run in which nothing was emitted: the emitted multiset of employee
ids differs from the ingested one, so the claimed property fails over all
interleavings. -/
theorem pipeline_drops_record :
    Relation.ReflTransGen (PipeStep scenarioParams)
      (initState [("1001", 10000)] 1) droppedFinal ∧
    Terminal droppedFinal ∧
    outIds droppedFinal.out ≠ inIds [("1001", 10000)] := by
  refine ⟨?_, ⟨rfl, rfl, rfl⟩, by simp [outIds, inIds, droppedFinal]⟩
  refine Relation.ReflTransGen.head
    (PipeStep.worker_timeout [("1001", 10000)] [] [] 0 true)
    (Relation.ReflTransGen.head
      (PipeStep.sink_timeout [("1001", 10000)] [] [] 0)
      (Relation.ReflTransGen.single ?_))
  exact PipeStep.source_put ("1001", 10000) [] [] [] [] 0 false

/-- A well-behaved interleaving step: identical to `PipeStep` except that a
stage only times out once no further input can ever reach it (the source is
drained and, for the exporter, all workers are gone). This models runs in
which the 1-second timeout never fires early. -/
inductive GoodStep (p : InsuranceParams) : PipeState → PipeState → Prop
  | source_put (r : IncomeRecord) (rest qA : List IncomeRecord)
      (qB out : List ResultRecord) (w : ℕ) (sa : Bool) :
      GoodStep p ⟨r :: rest, qA, qB, out, w, sa⟩
        ⟨rest, qA ++ [r], qB, out, w, sa⟩
  | worker_process (r : IncomeRecord) (src qA : List IncomeRecord)
      (qB out : List ResultRecord) (w : ℕ) (sa : Bool) :
      GoodStep p ⟨src, r :: qA, qB, out, w + 1, sa⟩
        ⟨src, qA, qB ++ [calculate p r.1 r.2], out, w + 1, sa⟩
  | worker_timeout (qB out : List ResultRecord) (w : ℕ) (sa : Bool) :
      GoodStep p ⟨[], [], qB, out, w + 1, sa⟩ ⟨[], [], qB, out, w, sa⟩
  | sink_get (r : ResultRecord) (src qA : List IncomeRecord)
      (qB out : List ResultRecord) (w : ℕ) :
      GoodStep p ⟨src, qA, r :: qB, out, w, true⟩
        ⟨src, qA, qB, out ++ [r], w, true⟩
  | sink_timeout (out : List ResultRecord) :
      GoodStep p ⟨[], [], [], out, 0, true⟩ ⟨[], [], [], out, 0, false⟩

/-- Every well-behaved step is an interleaving step. -/
theorem goodStep_pipeStep (p : InsuranceParams) {s s' : PipeState}
    (h : GoodStep p s s') : PipeStep p s s' := by
  cases h
  · exact PipeStep.source_put ..
  · exact PipeStep.worker_process ..
  · exact PipeStep.worker_timeout ..
  · exact PipeStep.sink_get ..
  · exact PipeStep.sink_timeout ..

/-- The invariant of well-behaved runs: a stage is only dead once nothing
can reach it any more. -/
def GoodInv (s : PipeState) : Prop :=
  (s.workers = 0 → s.src = [] ∧ s.qA = []) ∧
  (s.sinkAlive = false →
    s.src = [] ∧ s.qA = [] ∧ s.qB = [] ∧ s.workers = 0)

/-- Well-behaved steps preserve `GoodInv`. -/
theorem goodStep_inv {p : InsuranceParams} {s s' : PipeState}
    (h : GoodStep p s s') (hs : GoodInv s) : GoodInv s' := by
  obtain ⟨h1, h2⟩ := hs
  cases h <;> constructor <;> intro hh <;> simp_all [GoodInv]

/-- `GoodInv` holds along any well-behaved run. -/
theorem goodReachable_inv {p : InsuranceParams} {s s' : PipeState}
    (h : Relation.ReflTransGen (GoodStep p) s s') (hs : GoodInv s) :
    GoodInv s' := by
  induction h with
  | refl => exact hs
  | tail _ hstep ih => exact goodStep_inv hstep ih

/-- C6 amended: over all interleavings the emitted multiset of employee ids
is a sub-multiset of the ingested one (nothing is ever duplicated), and the
full multiset equality holds for every completed run of a well-behaved
interleaving, i.e. one in which no stage times out while upstream work
remains. A premature timeout can drop records, as the counterexample
shows. -/
theorem pipeline_multiset_amended (p : InsuranceParams)
    (input : List IncomeRecord) (n : ℕ) (hn : 1 ≤ n) (s : PipeState) :
    (Relation.ReflTransGen (PipeStep p) (initState input n) s →
      outIds s.out ≤ inIds input) ∧
    (Relation.ReflTransGen (GoodStep p) (initState input n) s →
      Terminal s → outIds s.out = inIds input) := by
  have hinit : idCount (initState input n) = inIds input := by
    simp [idCount, initState, inIds, outIds]
  constructor
  · intro h
    have hc := reachable_idCount p h
    rw [hinit] at hc
    have hle : outIds s.out ≤ idCount s := by
      unfold idCount
      exact Multiset.le_add_left _ _
    rw [hc] at hle
    exact hle
  · intro hg hterm
    have hinv := goodReachable_inv hg
      (⟨fun h0 => by simp [initState] at h0; exact absurd h0 (by omega),
        fun hfalse => by simp [initState] at hfalse⟩)
    obtain ⟨hsrc, hw, hsa⟩ := hterm
    obtain ⟨-, h2⟩ := hinv
    obtain ⟨hsrc2, hqA, hqB, -⟩ := h2 hsa
    have hc := reachable_idCount p
      (Relation.ReflTransGen.mono (fun a b hab => goodStep_pipeStep p hab) hg)
    rw [hinit] at hc
    rw [← hc]
    unfold idCount
    rw [hsrc2, hqA, hqB]
    simp [inIds, outIds]

/-- The terminal state of a well-behaved one-record run. -/
def goodFinal : PipeState :=
  ⟨[], [], [], [calculate scenarioParams "1001" 10000], 0, false⟩

/-- C6 amended witness: a concrete well-behaved run of one record through
one worker emits exactly that record's id. -/
theorem pipeline_multiset_amended_witness :
    outIds goodFinal.out ≤ inIds [("1001", (10000 : ℚ))] ∧
    outIds goodFinal.out = inIds [("1001", (10000 : ℚ))] := by
  have hgood : Relation.ReflTransGen (GoodStep scenarioParams)
      (initState [("1001", (10000 : ℚ))] 1) goodFinal := by
    refine Relation.ReflTransGen.head
      (GoodStep.source_put ("1001", 10000) [] [] [] [] 1 true) ?_
    refine Relation.ReflTransGen.head
      (GoodStep.worker_process ("1001", 10000) [] [] [] [] 0 true) ?_
    refine Relation.ReflTransGen.head
      (GoodStep.sink_get (calculate scenarioParams "1001" 10000) [] [] [] []
        1) ?_
    refine Relation.ReflTransGen.head
      (GoodStep.worker_timeout [] [calculate scenarioParams "1001" 10000] 0
        true) ?_
    exact Relation.ReflTransGen.single
      (GoodStep.sink_timeout [calculate scenarioParams "1001" 10000])
  have h := pipeline_multiset_amended scenarioParams
    [("1001", (10000 : ℚ))] 1 (le_refl 1) goodFinal
  exact ⟨h.1 (Relation.ReflTransGen.mono
      (fun a b hab => goodStep_pipeStep scenarioParams hab) hgood),
    h.2 hgood ⟨rfl, rfl, rfl⟩⟩

/-- One raw input line, already split on a comma as Python's
`line.strip().split(',')` produces it: the list of comma-separated
fields. -/
abbrev RawLine := List String

/-- Parsing one line in `UserData._read_users_data`: the unpacking
`employee_id, income_string = line.strip().split(',')` raises `ValueError`
unless there are exactly two fields, and `int(income_string)` must parse
(modelled by `String.toInt?`); any failure kills the `UserData` process
(`exit()` for a bad integer, an uncaught `ValueError` for a bad field
count). -/
def parseLine : RawLine → Option (String × ℤ)
  | [employee_id, income_string] =>
    match income_string.toInt? with
    | some income => some (employee_id, income)
    | none => none
  | _ => none

/-- `UserData._read_users_data`: every line is read and parsed into a list
before anything is enqueued; the first failing line aborts the whole
process, so nothing at all is returned. -/
def read_users_data : List RawLine → Option (List (String × ℤ))
  | [] => some []
  | line :: rest =>
    match parseLine line with
    | some r => (read_users_data rest).map (fun l => r :: l)
    | none => none

/-- `UserData.run`: the records put on the input queue — all parsed records
when reading succeeded, nothing when the process died while reading. -/
def userDataEmit (lines : List RawLine) : List (String × ℤ) :=
  (read_users_data lines).getD []

/-- A single bad line anywhere in the file makes `_read_users_data`
fail. -/
theorem read_users_data_eq_none :
    ∀ lines : List RawLine, ∀ l ∈ lines, parseLine l = none →
      read_users_data lines = none := by
  intro lines
  induction lines with
  | nil => intro l hl _; simp at hl
  | cons a rest ih =>
    intro l hl hbad
    rcases List.mem_cons.1 hl with rfl | hmem
    · simp [read_users_data, hbad]
    · simp only [read_users_data]
      cases hpa : parseLine a
      · rfl
      · simp [ih l hmem hbad]

/-- C7: if any line of the input file fails to parse (wrong field count or
a non-integer income), nothing is emitted onto the input queue — not even
the records of the lines before the bad one — because the whole file is
parsed before the first enqueue and the failure kills the source
process. -/
theorem parse_failure_aborts_run (lines : List RawLine)
    (h : ∃ l ∈ lines, parseLine l = none) :
    userDataEmit lines = [] ∧ read_users_data lines = none := by
  obtain ⟨l, hl, hbad⟩ := h
  have hn := read_users_data_eq_none lines l hl hbad
  exact ⟨by simp [userDataEmit, hn], hn⟩

/-- C7 witness: a good line followed by a line with a missing income field;
nothing is emitted, in particular not the good first record. -/
theorem parse_failure_aborts_run_witness :
    userDataEmit [["1001", "5000"], ["1002"]] = [] ∧
    read_users_data [["1001", "5000"], ["1002"]] = none :=
  parse_failure_aborts_run [["1001", "5000"], ["1002"]]
    ⟨["1002"], by simp, rfl⟩

/-- A raw configuration value as `Config._get_config` sees it: the key may
be missing from the profile (`KeyError`), present but non-numeric
(`ValueError` inside `float`), or numeric. -/
inductive ConfigValue
  | missing
  | nonNumeric
  | num (q : ℚ)
deriving DecidableEq

/-- The raw configuration profile with the eight required keys: `JiShuL`,
`JiShuH` and the six contribution-rate keys `YangLao`, `YiLiao`, `ShiYe`,
`GongShang`, `ShengYu`, `GongJiJin`. -/
structure RawConfig where
  jiShuL : ConfigValue
  jiShuH : ConfigValue
  yangLao : ConfigValue
  yiLiao : ConfigValue
  shiYe : ConfigValue
  gongShang : ConfigValue
  shengYu : ConfigValue
  gongJiJin : ConfigValue
deriving DecidableEq

/-- `Config._get_config`: return `float(value)` or abort the run
(`print('Parameter Error'); exit()`), modelled as `Except`. -/
def get_config : ConfigValue → Except Unit ℚ
  | ConfigValue.num q => Except.ok q
  | _ => Except.error ()

/-- The sum of `_get_config` over a list of raw values, reading left to
right, aborting on the first defective key, as the list comprehension in
`social_insurance_total_rate` does. -/
def sumRates : List ConfigValue → Except Unit ℚ
  | [] => Except.ok 0
  | v :: rest =>
    match get_config v with
    | Except.error e => Except.error e
    | Except.ok q =>
      match sumRates rest with
      | Except.error e => Except.error e
      | Except.ok s => Except.ok (q + s)

/-- `Config.social_insurance_total_rate`: the sum of the six rate keys. -/
def social_insurance_total_rate (c : RawConfig) : Except Unit ℚ :=
  sumRates [c.yangLao, c.yiLiao, c.shiYe, c.gongShang, c.shengYu,
    c.gongJiJin]

/-- `calc_social_insurance_money` with the lazy configuration access of the
source: the keys are read only when the corresponding `Config` property is
evaluated, so `JiShuL` is read first, `JiShuH` only when the income is not
below the floor, and the six rate keys in every branch. -/
def calc_social_insurance_money_cfg (c : RawConfig) (income : ℚ) :
    Except Unit ℚ :=
  match get_config c.jiShuL with
  | Except.error e => Except.error e
  | Except.ok low =>
    if income < low then
      match social_insurance_total_rate c with
      | Except.error e => Except.error e
      | Except.ok rate => Except.ok (low * rate)
    else
      match get_config c.jiShuH with
      | Except.error e => Except.error e
      | Except.ok high =>
        if income > high then
          match social_insurance_total_rate c with
          | Except.error e => Except.error e
          | Except.ok rate => Except.ok (high * rate)
        else
          match social_insurance_total_rate c with
          | Except.error e => Except.error e
          | Except.ok rate => Except.ok (income * rate)

/-- `IncomeTaxCalculator.calculate` for one record under the lazy
configuration: a defective key read aborts the record's computation (and
with it the process). -/
def calculate_cfg (c : RawConfig) (r : String × ℚ) :
    Except Unit ResultRecord :=
  match calc_social_insurance_money_cfg c r.2 with
  | Except.error e => Except.error e
  | Except.ok si =>
    Except.ok (r.1, r.2, si,
      (taxLoop (r.2 - si - INCOME_TAX_START_POINT) (r.2 - si)
        INCOME_TAX_QUICK_LOOKUP_TABLE).1,
      (taxLoop (r.2 - si - INCOME_TAX_START_POINT) (r.2 - si)
        INCOME_TAX_QUICK_LOOKUP_TABLE).2)

/-- The calculator process over a batch, records processed in order; the
first defective configuration read kills the whole run. -/
def processAll (c : RawConfig) : List (String × ℚ) →
    Except Unit (List ResultRecord)
  | [] => Except.ok []
  | r :: rest =>
    match calculate_cfg c r with
    | Except.error e => Except.error e
    | Except.ok row =>
      match processAll c rest with
      | Except.error e => Except.error e
      | Except.ok rows => Except.ok (row :: rows)

/-- A configuration value `_get_config` rejects. -/
def BadValue (v : ConfigValue) : Prop :=
  v = ConfigValue.missing ∨ v = ConfigValue.nonNumeric

/-- Some required configuration key is missing or non-numeric. -/
def BadConfig (c : RawConfig) : Prop :=
  BadValue c.jiShuL ∨ BadValue c.jiShuH ∨ BadValue c.yangLao ∨
  BadValue c.yiLiao ∨ BadValue c.shiYe ∨ BadValue c.gongShang ∨
  BadValue c.shengYu ∨ BadValue c.gongJiJin

/-- A profile whose ceiling key `JiShuH` is missing while everything else
is numeric (floor 3000, rates summing to 0.105). -/
def ceilingMissingConfig : RawConfig :=
  ⟨ConfigValue.num 3000, ConfigValue.missing, ConfigValue.num 0.08,
   ConfigValue.num 0.02, ConfigValue.num 0.005, ConfigValue.num 0,
   ConfigValue.num 0, ConfigValue.num 0⟩

/-- C8 counterexample: configuration keys are read lazily during record
processing, never at startup, so a missing required key (here the insurance
ceiling `JiShuH`) is not detected before records are processed — with an
income below the floor the ceiling is never read and the run completes
successfully instead of aborting. -/
theorem config_error_undetected_when_key_unread :
    BadConfig ceilingMissingConfig ∧
    processAll ceilingMissingConfig [("1001", 2000)] =
      Except.ok [("1001", 2000, 315, 0, 1685)] := by
  refine ⟨Or.inr (Or.inl (Or.inl rfl)), ?_⟩
  norm_num [processAll, calculate_cfg, calc_social_insurance_money_cfg,
    social_insurance_total_rate, sumRates, get_config, ceilingMissingConfig,
    taxLoop, INCOME_TAX_QUICK_LOOKUP_TABLE, INCOME_TAX_START_POINT]

/-- A defective rate key in a list of raw values makes the sum abort. -/
theorem sumRates_error :
    ∀ l : List ConfigValue, ∀ v ∈ l, BadValue v →
      sumRates l = Except.error () := by
  intro l
  induction l with
  | nil => intro v hv _; simp at hv
  | cons a rest ih =>
    intro v hv hbad
    rcases List.mem_cons.1 hv with rfl | hmem
    · rcases hbad with h1 | h1 <;> (rw [sumRates, h1]; rfl)
    · rw [sumRates]
      cases ha : get_config a with
      | error e => rfl
      | ok q => rw [ih v hmem hbad]

/-- C8 amended: the floor key and the six rate keys are read by every
record's computation, so when one of them is missing or non-numeric and at
least one record is present, the run aborts fatally during (not before) the
first record's computation and emits nothing; a defective ceiling key is
only read for incomes not below the floor, and with zero records no
configuration defect is detected at all. -/
theorem config_error_aborts_on_first_record (c : RawConfig)
    (hbad : BadValue c.jiShuL ∨ BadValue c.yangLao ∨ BadValue c.yiLiao ∨
      BadValue c.shiYe ∨ BadValue c.gongShang ∨ BadValue c.shengYu ∨
      BadValue c.gongJiJin)
    (recs : List (String × ℚ)) (hne : recs ≠ []) :
    processAll c recs = Except.error () := by
  have hsi : ∀ income : ℚ,
      calc_social_insurance_money_cfg c income = Except.error () := by
    intro income
    rcases hbad with hb | hb
    · rcases hb with h1 | h1 <;>
        simp [calc_social_insurance_money_cfg, h1, get_config]
    · have hrate : social_insurance_total_rate c = Except.error () := by
        unfold social_insurance_total_rate
        rcases hb with h | h | h | h | h | h
        · exact sumRates_error _ c.yangLao (by simp) h
        · exact sumRates_error _ c.yiLiao (by simp) h
        · exact sumRates_error _ c.shiYe (by simp) h
        · exact sumRates_error _ c.gongShang (by simp) h
        · exact sumRates_error _ c.shengYu (by simp) h
        · exact sumRates_error _ c.gongJiJin (by simp) h
      unfold calc_social_insurance_money_cfg
      rw [hrate]
      cases hL : get_config c.jiShuL with
      | error e => rfl
      | ok low =>
        dsimp only
        split_ifs
        · rfl
        · cases hH : get_config c.jiShuH with
          | error e => rfl
          | ok high =>
            dsimp only
            split_ifs <;> rfl
  obtain ⟨r, rest, rfl⟩ := List.exists_cons_of_ne_nil hne
  rw [processAll, calculate_cfg, hsi r.2]

/-- A profile whose `YangLao` rate key is missing. -/
def rateMissingConfig : RawConfig :=
  ⟨ConfigValue.num 3000, ConfigValue.num 20000, ConfigValue.missing,
   ConfigValue.num 0, ConfigValue.num 0, ConfigValue.num 0,
   ConfigValue.num 0, ConfigValue.num 0⟩

/-- C8 amended witness. -/
theorem config_error_aborts_on_first_record_witness :
    processAll rateMissingConfig [("1001", 10000)] = Except.error () :=
  config_error_aborts_on_first_record rateMissingConfig
    (Or.inr (Or.inl (Or.inl rfl))) [("1001", 10000)] (by simp)

/-- C10 witness. -/
theorem negative_income_processed_witness :
    calc_social_insurance_money scenarioParams (-100) =
      scenarioParams.low * scenarioParams.rate ∧
    calc_income_tax_and_remain scenarioParams (-100) =
      (0, -100 - scenarioParams.low * scenarioParams.rate) ∧
    (calc_income_tax_and_remain scenarioParams (-100)).2 < 0 :=
  negative_income_processed scenarioParams (by norm_num [scenarioParams])
    (by norm_num [scenarioParams]) (-100) (by norm_num)
